import Mathlib

/-!
Verification of the GS1 DataMatrix parser of the Medicana stock app
(`utils/parseGs1Data.js`).  Strings are modelled as `List Char` (one entry
per code point); every definition below is a direct shallow embedding of the
corresponding JavaScript function, keeping its name where possible.
-/

set_option linter.unusedVariables false

namespace Gs1

/-! ## JavaScript string primitives -/

/-- Control characters replaced by the normalizer: the JS regex
`[\x00-\x1F\x7F]`, i.e. ordinals 0–31 and 127. -/
def isCtl (c : Char) : Bool :=
  c.toNat ≤ 31 || c.toNat == 127

/-- Code points removed by JS `String.prototype.trim` (WhiteSpace and
LineTerminator productions of ECMAScript). -/
def jsSpaceCodes : List Nat :=
  [9, 10, 11, 12, 13, 32, 160, 5760, 8232, 8233, 8239, 8287, 12288, 65279]

/-- Whether `c` is whitespace for JS `trim` / `parseInt`; the contiguous
range 0x2000–0x200A is the block of typographic space separators. -/
def isJsSpace (c : Char) : Bool :=
  decide (c.toNat ∈ jsSpaceCodes ∨ (8192 ≤ c.toNat ∧ c.toNat ≤ 8202))

/-- Digit test used by the JS regexes (`\d`) and `parseInt`: code points
48–57. -/
def isDigitCh (c : Char) : Bool :=
  decide (48 ≤ c.toNat ∧ c.toNat ≤ 57)

/-- JS `str.substring(a, b)` for `a ≤ b` (the only way the source calls it):
characters from index `a` up to, but excluding, `b`, clamped to the string
length. -/
def jsSubstring (s : List Char) (a b : Nat) : List Char :=
  (s.drop a).take (b - a)

/-- Drop the longest suffix of characters satisfying `p`. -/
def dropTrailing (p : Char → Bool) (l : List Char) : List Char :=
  (l.reverse.dropWhile p).reverse

/-- JS `str.trim()`: strip leading and trailing JS whitespace. -/
def listTrim (l : List Char) : List Char :=
  dropTrailing isJsSpace (l.dropWhile isJsSpace)

/-- Whether `pre` is an initial segment of `l`. -/
def listStartsWith : List Char → List Char → Bool
  | [], _ => true
  | _ :: _, [] => false
  | a :: as, b :: bs => a == b && listStartsWith as bs

/-! ## Normalizer (`normalizeGs1Raw`) -/

/-- One character of the JS replace `raw.replace(/[\x00-\x1F\x7F]/g, '|')`. -/
def ctrlToSep (c : Char) : Char :=
  if isCtl c then '|' else c

/-- Embedding of `normalizeGs1Raw`: replace every control character with
the separator `'|'`, trim surrounding whitespace, then strip leading and
trailing separator runs (`/^\|+|\|+$/g`).  The trim happens before the
separator stripping, exactly as in the source. -/
def normalizeGs1Raw (raw : List Char) : List Char :=
  dropTrailing (fun c => c == '|')
    ((listTrim (raw.map ctrlToSep)).dropWhile (fun c => c == '|'))

/-! ## AI registry (`GS1_AI_DEFINITIONS`) -/

/-- Embedding of the `GS1_AI_DEFINITIONS` table: `some (some n)` for a
fixed-length AI of length `n`, `some none` for a known variable-length AI,
`none` for an unknown code. -/
def aiFixedLen (code : List Char) : Option (Option Nat) :=
  if code = ['0', '1'] then some (some 14)
  else if code = ['1', '7'] then some (some 6)
  else if code = ['1', '0'] then some none
  else if code = ['2', '1'] then some none
  else if code = ['1', '1'] then some (some 6)
  else if code = ['3', '0'] then some none
  else none

/-- Embedding of the `isKnownAI` helper of `parseNonParenthesizedGs1`:
probe the registry with the 2-, then 3-, then 4-character substring at
`position`, returning the first code found. -/
def isKnownAI (s : List Char) (position : Nat) : Option (List Char) :=
  let two := jsSubstring s position (position + 2)
  if (aiFixedLen two).isSome then some two
  else
    let three := jsSubstring s position (position + 3)
    if (aiFixedLen three).isSome then some three
    else
      let four := jsSubstring s position (position + 4)
      if (aiFixedLen four).isSome then some four
      else none

/-! ## Sequential tokenizer (`parseNonParenthesizedGs1`) -/

/-- Inner `while` loop of the variable-length capture: starting from
`endPos`, stop at a separator (second component `true`), at a position
where a known AI is recognized provided at least one character was already
consumed (`pos < endPos`), or at the end of the string.  `fuel` bounds the
iteration count; `scanVar` supplies enough of it. -/
def scanVarGo (fuel : Nat) (s : List Char) (pos endPos : Nat) : Nat × Bool :=
  match fuel with
  | 0 => (endPos, false)
  | Nat.succ fuel =>
    if endPos < s.length then
      if s.getD endPos ' ' = '|' then (endPos, true)
      else if pos < endPos ∧ (isKnownAI s endPos).isSome then (endPos, false)
      else scanVarGo fuel s pos (endPos + 1)
    else (endPos, false)

/-- Variable-length capture scan of `parseNonParenthesizedGs1`, starting
at the value's first position `pos`. -/
def scanVar (s : List Char) (pos : Nat) : Nat × Bool :=
  scanVarGo (s.length + 1 - pos) s pos pos

/-- The four retained fields of the tokenizer's result object. -/
structure Gs1Fields where
  gtin : Option (List Char)
  expiryDateRaw : Option (List Char)
  batch : Option (List Char)
  serial : Option (List Char)
deriving DecidableEq

/-- Field assignment at the end of the tokenizer's loop body: AIs 01, 17,
10, 21 are stored (batch and serial trimmed); other recognized AIs are
consumed but discarded. -/
def storeField (ai : List Char) (value : List Char) (acc : Gs1Fields) : Gs1Fields :=
  if ai = ['0', '1'] then ⟨some value, acc.expiryDateRaw, acc.batch, acc.serial⟩
  else if ai = ['1', '7'] then ⟨acc.gtin, some value, acc.batch, acc.serial⟩
  else if ai = ['1', '0'] then ⟨acc.gtin, acc.expiryDateRaw, some (listTrim value), acc.serial⟩
  else if ai = ['2', '1'] then ⟨acc.gtin, acc.expiryDateRaw, acc.batch, some (listTrim value)⟩
  else acc

/-- Main `while (pos < input.length)` loop of `parseNonParenthesizedGs1`.
Each iteration strictly advances `pos`, so `s.length + 1` units of fuel
always suffice. -/
def parseNonParenGo (fuel : Nat) (s : List Char) (pos : Nat) (acc : Gs1Fields) : Gs1Fields :=
  match fuel with
  | 0 => acc
  | Nat.succ fuel =>
    if pos < s.length then
      match isKnownAI s pos with
      | none => acc
      | some ai =>
        let pos := pos + ai.length
        match aiFixedLen ai with
        | some (some n) =>
          let value := jsSubstring s pos (pos + n)
          parseNonParenGo fuel s (pos + n) (storeField ai value acc)
        | some none =>
          let e := scanVar s pos
          let value := jsSubstring s pos e.1
          parseNonParenGo fuel s (if e.2 then e.1 + 1 else e.1) (storeField ai value acc)
        | none => acc
    else acc

/-- Embedding of `parseNonParenthesizedGs1`. -/
def parseNonParenthesizedGs1 (s : List Char) : Gs1Fields :=
  parseNonParenGo (s.length + 1) s 0 ⟨none, none, none, none⟩

/-! ## Format classifier (the two regex tests of `parseGs1Data`) -/

/-- Whether the digit pair `d1 d2` falls in one of the AI numeric ranges of
the detection regex `\(0[0-9]\)|\(1[0-7]\)|\(2[0-1]\)|\(3[0-9]\)`. -/
def parenAiDigits (d1 d2 : Char) : Bool :=
  (d1 == '0' && isDigitCh d2) ||
  (d1 == '1' && decide (48 ≤ d2.toNat ∧ d2.toNat ≤ 55)) ||
  (d1 == '2' && decide (48 ≤ d2.toNat ∧ d2.toNat ≤ 49)) ||
  (d1 == '3' && isDigitCh d2)

/-- Whether the string begins with `(` + two digits in the known AI ranges
+ `)`. -/
def parenAiAt : List Char → Bool
  | '(' :: d1 :: d2 :: ')' :: _ => parenAiDigits d1 d2
  | _ => false

/-- Embedding of the `hasParentheses` test: the detection pattern occurs
somewhere in the string. -/
def hasParenthesesB : List Char → Bool
  | [] => false
  | c :: rest => parenAiAt (c :: rest) || hasParenthesesB rest

/-- Embedding of the `hasGtinPrefix` test `/^01\d{14}/`: the string starts
with the literal code `01` followed by at least 14 digits. -/
def hasGtinAiStart : List Char → Bool
  | '0' :: '1' :: rest =>
    decide (14 ≤ rest.length) && (rest.take 14).all isDigitCh
  | _ => false

/-! ## Parenthesized extractor (`extractAI`) -/

/-- Leftmost match of the regex `\(ai\)([^(|]+)`: at each start position in
turn, the full marker `(ai)` must match and must be followed by at least
one character that is neither `(` nor `|`; the captured group is then the
maximal (greedy) run of such characters.  Returns the captured run of the
first position where the whole pattern matches. -/
def findAIMatchGo (marker : List Char) : List Char → Option (List Char)
  | [] => none
  | c :: rest =>
    if listStartsWith marker (c :: rest) then
      let run := ((c :: rest).drop marker.length).takeWhile
        (fun ch => ch ≠ '(' ∧ ch ≠ '|')
      if run = [] then findAIMatchGo marker rest else some run
    else findAIMatchGo marker rest

/-- Captured group of `input.match(new RegExp("\\(" + ai + "\\)" + "([^(|]+)"))`. -/
def findAIMatch (s : List Char) (marker : List Char) : Option (List Char) :=
  findAIMatchGo marker s

/-- Embedding of `extractAI input ai fixedLength`.  With a fixed length the
value is the first `n` characters of the captured run; otherwise trailing
separators are removed and the value is trimmed.  An empty value becomes
`undefined` (the final `value || undefined`). -/
def extractAI (s : List Char) (ai : List Char) (fixedLength : Option Nat) :
    Option (List Char) :=
  match findAIMatch s ('(' :: ai ++ [')']) with
  | none => none
  | some run =>
    let value :=
      match fixedLength with
      | some n => run.take n
      | none => listTrim (dropTrailing (fun c => c == '|') run)
    if value = [] then none else some value

/-! ## Date decoder (`parseYYMMDD`) and JS `Date` model -/

/-- Decimal value of a digit run, as accumulated by `parseInt`. -/
def digitsToNat (ds : List Char) : Nat :=
  ds.foldl (fun acc c => acc * 10 + (c.toNat - 48)) 0

/-- Value of the maximal leading digit run, or `none` when there is no
digit (JS `NaN`). -/
def digitsVal (l : List Char) : Option Nat :=
  let ds := l.takeWhile isDigitCh
  if ds.length = 0 then none else some (digitsToNat ds)

/-- Embedding of JS `parseInt(s, 10)`: skip leading whitespace, accept an
optional sign, then read the maximal digit run; `none` models `NaN`. -/
def jsParseInt (s : List Char) : Option Int :=
  match s.dropWhile isJsSpace with
  | [] => none
  | c :: rest =>
    if c = '-' then Option.map (fun n => -(n : Int)) (digitsVal rest)
    else if c = '+' then Option.map (fun n => (n : Int)) (digitsVal rest)
    else Option.map (fun n => (n : Int)) (digitsVal (c :: rest))

/-- Range rejection of `parseYYMMDD`: `v < lo || v > hi`.  A `none` models
`NaN`, for which both comparisons are false in JS, so it is not rejected
here (it fails later at `Date` construction). -/
def badRange (v : Option Int) (lo hi : Int) : Bool :=
  match v with
  | none => false
  | some v => decide (v < lo) || decide (v > hi)

/-- Gregorian leap-year rule, as used by the ECMAScript `Date` calendar. -/
def isLeapYear (y : Int) : Bool :=
  y % 4 = 0 && (y % 100 ≠ 0 || y % 400 = 0)

/-- Number of days of month `m` (1-based) of year `y`. -/
def daysInMonth (y : Int) (m : Int) : Int :=
  if m = 2 then (if isLeapYear y then 29 else 28)
  else if m = 4 ∨ m = 6 ∨ m = 9 ∨ m = 11 then 30
  else 31

/-- Components `(getFullYear, getMonth, getDate)` of the ECMAScript value
`new Date(y, m0, d)` on the domain reachable from `parseYYMMDD`
(`0 ≤ m0 ≤ 11`, `1 ≤ d ≤ 31`): a day count exceeding the month's length
rolls into the following month, and at most one month of roll-over can
occur there since `d - daysInMonth ≤ 3`. -/
def jsDateYMD (y m0 d : Int) : Int × Int × Int :=
  if d ≤ daysInMonth y (m0 + 1) then (y, m0, d)
  else if m0 = 11 then (y + 1, 0, d - 31)
  else (y, m0 + 1, d - daysInMonth y (m0 + 1))

/-- Calendar date: the `(getFullYear, getMonth + 1, getDate)` view of a
valid JS `Date`; `month` and `day` are 1-based. -/
structure CalDate where
  year : Int
  month : Nat
  day : Nat
deriving DecidableEq

/-- Embedding of `parseYYMMDD`: length check, `parseInt` of the three
2-character slices, month/day range checks (a `NaN` passes them), `Date`
construction with year `2000 + yy`, and re-derivation of the components to
reject rolled-over dates.  A `NaN` component yields an invalid `Date`,
whose re-derived components never compare equal, hence `none`. -/
def parseYYMMDD (s : List Char) : Option CalDate :=
  if s.length ≠ 6 then none
  else
    let yy := jsParseInt (jsSubstring s 0 2)
    let mm := jsParseInt (jsSubstring s 2 4)
    let dd := jsParseInt (jsSubstring s 4 6)
    if badRange mm 1 12 then none
    else if badRange dd 1 31 then none
    else
      match yy, mm, dd with
      | some y, some m, some d =>
        let year := 2000 + y
        if jsDateYMD year (m - 1) d = (year, m - 1, d) then
          some ⟨year, m.toNat, d.toNat⟩
        else none
      | _, _, _ => none

/-! ## Result assembler (`parseGs1Data`) -/

/-- The `ParsedGs1Data` record returned by `parseGs1Data`; absent optional
fields are `none` (JS `undefined`), and `expiryDate = none` is the null
sentinel. -/
structure ParsedRecord where
  raw : List Char
  isGs1 : Bool
  gtin : Option (List Char)
  expiryDateRaw : Option (List Char)
  expiryDate : Option CalDate
  batch : Option (List Char)
  serial : Option (List Char)
deriving DecidableEq

/-- Expiry-date step of `parseGs1Data`: the guard `result.expiryDateRaw &&
result.expiryDateRaw.length === 6` (the empty string is falsy, which
coincides with the length test) followed by `parseYYMMDD`.  The
`try`/`catch` of the source protects against internal exceptions; every
operation of the block is total here, so the block is embedded directly. -/
def expiryFromRaw (o : Option (List Char)) : Option CalDate :=
  match o with
  | some e => if e.length = 6 then parseYYMMDD e else none
  | none => none

/-- Embedding of the body of `parseGs1Data`: classification on the
normalized string, dispatch to the parenthesized extractor or the
sequential tokenizer, then the expiry-date step above. -/
def parseGs1Data (raw : List Char) : ParsedRecord :=
  if raw = [] then ⟨raw, false, none, none, none, none, none⟩
  else
    let normalized := normalizeGs1Raw raw
    let hasParens := hasParenthesesB normalized
    let hasGtin := hasGtinAiStart normalized
    if !hasParens && !hasGtin then ⟨raw, false, none, none, none, none, none⟩
    else
      let fields : Gs1Fields :=
        if hasParens then
          ⟨extractAI normalized ['0', '1'] (some 14),
           extractAI normalized ['1', '7'] (some 6),
           extractAI normalized ['1', '0'] none,
           extractAI normalized ['2', '1'] none⟩
        else parseNonParenthesizedGs1 normalized
      ⟨raw, true, fields.gtin, fields.expiryDateRaw,
        expiryFromRaw fields.expiryDateRaw, fields.batch, fields.serial⟩

/-! ## Auxiliary formatting functions -/

/-- Decimal digits of `n`, as produced by JS `String(n)` for a natural
number. -/
def natChars (n : Nat) : List Char :=
  Nat.toDigits 10 n

/-- JS `String(i)` for an integer. -/
def intChars (i : Int) : List Char :=
  if i < 0 then '-' :: natChars (-i).toNat else natChars i.toNat

/-- JS `String(n).padStart(2, '0')`: prepend zeros until the length
reaches 2. -/
def pad2 (n : Nat) : List Char :=
  let s := natChars n
  if 2 ≤ s.length then s else List.replicate (2 - s.length) '0' ++ s

/-- Embedding of `formatDateForInput`.  A JS `null`, `undefined`, non-`Date`
or invalid (`NaN`-valued) `Date` argument is modelled by `none`; a valid
`Date` by its components, with `getMonth() + 1 = month`. -/
def formatDateForInput (date : Option CalDate) : List Char :=
  match date with
  | none => []
  | some d => intChars d.year ++ '-' :: pad2 d.month ++ '-' :: pad2 d.day

/-- Month/year string pair returned by `formatDateForMonthYear`. -/
structure MonthYear where
  month : List Char
  year : List Char
deriving DecidableEq

/-- Embedding of `formatDateForMonthYear`; the invalid-input guard is the
same as in `formatDateForInput`. -/
def formatDateForMonthYear (date : Option CalDate) : MonthYear :=
  match date with
  | none => ⟨[], []⟩
  | some d => ⟨pad2 d.month, intChars d.year⟩

end Gs1


/-! ## Helper lemmas -/

namespace Gs1

lemma normalizeGs1Raw_nil : normalizeGs1Raw [] = [] := rfl

lemma expiryFromRaw_eq_bind (o : Option (List Char)) :
    expiryFromRaw o = o.bind (fun e => if e.length = 6 then parseYYMMDD e else none) := by
  cases o <;> rfl

lemma extractAI_ne_some_nil (s ai : List Char) (fl : Option Nat) :
    extractAI s ai fl ≠ some [] := by
  unfold extractAI
  cases h : findAIMatch s ('(' :: ai ++ [')']) with
  | none => simp
  | some run =>
    simp only []
    split
    · simp
    · next hne => simp [hne]

end Gs1

/-! ## Claim theorems -/

open Gs1

/-- C1: for every input, `parseGs1Data` is total (the embedding is a total
function, mirroring the source's `try`/`catch` boundary below which every
operation is total), `raw` always carries the original input, and `isGs1`
is exactly the classification (non-empty input whose normalized form
matches the parenthesized pattern or the bracketless product-code
pattern). -/
theorem parseGs1Data_never_throws_and_classifies (raw : List Char) :
    (parseGs1Data raw).raw = raw ∧
    (parseGs1Data raw).isGs1 =
      (!raw.isEmpty &&
        (hasParenthesesB (normalizeGs1Raw raw) || hasGtinAiStart (normalizeGs1Raw raw))) := by
  cases raw with
  | nil => decide
  | cons x xs =>
    unfold parseGs1Data
    rw [if_neg (by simp)]
    cases hp : hasParenthesesB (normalizeGs1Raw (x :: xs)) <;>
      cases hg : hasGtinAiStart (normalizeGs1Raw (x :: xs)) <;>
        simp [hp, hg]

/-- C2: evaluation of `parseGs1Data` at the Scenario B input
`"0105012345678901" + GS + "17260430" + GS + "10LOT999"`.  The record
contains only the GTIN: after the fixed-length GTIN capture the cursor
rests on the separator, which is not a known AI, so the sequential scan
terminates and `expiryDateRaw`/`batch` stay absent — contradicting the
claim and the repository's own test expectations (example 3 of
`utils/gs1-test-examples.js`). -/
theorem scenarioB_sequential_actual_result :
    parseGs1Data ("0105012345678901".toList ++ [Char.ofNat 29] ++ "17260430".toList
        ++ [Char.ofNat 29] ++ "10LOT999".toList)
      = ⟨"0105012345678901".toList ++ [Char.ofNat 29] ++ "17260430".toList
          ++ [Char.ofNat 29] ++ "10LOT999".toList,
         true, some ("05012345678901".toList), none, none, none, none⟩ := by
  decide

/-- C7 (counterexample): the input `" 0101234567890123"` contains no
control character, does not match the parenthesized pattern, and does not
begin with `01` + 14 digits (it begins with a space) — yet `parseGs1Data`
classifies it as GS1, because the patterns are evaluated on the normalized
(whitespace-trimmed) string, not on the input itself. -/
theorem classifier_raw_vs_normalized_cx :
    (" 0101234567890123".toList.all (fun c => !isCtl c)) = true ∧
    hasParenthesesB (" 0101234567890123".toList) = false ∧
    hasGtinAiStart (" 0101234567890123".toList) = false ∧
    (parseGs1Data (" 0101234567890123".toList)).isGs1 = true := by
  decide

/-- C7 (amended): for every input whose NORMALIZED form (control
characters replaced by the separator, whitespace trimmed, leading/trailing
separator runs stripped) matches neither the parenthesized pattern nor the
bracketless product-code pattern, `parseGs1Data` returns a record with
`isGs1 = false` in which only `raw` is set (equal to the original input)
and every other field is absent. -/
theorem nonGs1_only_raw (raw : List Char)
    (hp : hasParenthesesB (normalizeGs1Raw raw) = false)
    (hg : hasGtinAiStart (normalizeGs1Raw raw) = false) :
    parseGs1Data raw = ⟨raw, false, none, none, none, none, none⟩ := by
  cases raw with
  | nil => rfl
  | cons x xs =>
    unfold parseGs1Data
    rw [if_neg (by simp)]
    simp [hp, hg]

/-- Witness for the amended C7 at the plain linear barcode of Scenario C. -/
theorem nonGs1_only_raw_w :
    parseGs1Data ("5012345678900".toList)
      = ⟨"5012345678900".toList, false, none, none, none, none, none⟩ :=
  nonGs1_only_raw ("5012345678900".toList) (by decide) (by decide)

/-- C8: whenever the normalized input matches both the parenthesized
detection pattern and the bracketless product-code pattern, `parseGs1Data`
extracts every field with the parenthesized extractor `extractAI`
(parenthesized wins the classification), never with the sequential
tokenizer. -/
theorem paren_wins_classification (raw : List Char)
    (hp : hasParenthesesB (normalizeGs1Raw raw) = true)
    (hg : hasGtinAiStart (normalizeGs1Raw raw) = true) :
    (parseGs1Data raw).isGs1 = true ∧
    (parseGs1Data raw).gtin = extractAI (normalizeGs1Raw raw) ['0', '1'] (some 14) ∧
    (parseGs1Data raw).expiryDateRaw = extractAI (normalizeGs1Raw raw) ['1', '7'] (some 6) ∧
    (parseGs1Data raw).batch = extractAI (normalizeGs1Raw raw) ['1', '0'] none ∧
    (parseGs1Data raw).serial = extractAI (normalizeGs1Raw raw) ['2', '1'] none := by
  have h : raw ≠ [] := by
    intro h; subst h
    rw [normalizeGs1Raw_nil] at hp
    exact absurd hp (by decide)
  unfold parseGs1Data
  rw [if_neg h]
  simp [hp, hg]

/-- Witness for C8 at `"0105012345678901(10)ABC"`, an input matching both
patterns; the parenthesized extractor finds no `(01)` marker, so `gtin` is
absent even though the bracketless path would have extracted one. -/
theorem paren_wins_classification_w :
    (parseGs1Data ("0105012345678901(10)ABC".toList)).isGs1 = true ∧
    (parseGs1Data ("0105012345678901(10)ABC".toList)).gtin
      = extractAI (normalizeGs1Raw ("0105012345678901(10)ABC".toList)) ['0', '1'] (some 14) ∧
    (parseGs1Data ("0105012345678901(10)ABC".toList)).expiryDateRaw
      = extractAI (normalizeGs1Raw ("0105012345678901(10)ABC".toList)) ['1', '7'] (some 6) ∧
    (parseGs1Data ("0105012345678901(10)ABC".toList)).batch
      = extractAI (normalizeGs1Raw ("0105012345678901(10)ABC".toList)) ['1', '0'] none ∧
    (parseGs1Data ("0105012345678901(10)ABC".toList)).serial
      = extractAI (normalizeGs1Raw ("0105012345678901(10)ABC".toList)) ['2', '1'] none :=
  paren_wins_classification ("0105012345678901(10)ABC".toList) (by decide) (by decide)

/-- C9: the auxiliary formatting functions return empty output for the
null/invalid sentinel (modelled by `none`, covering JS `null`, `undefined`
and `NaN`-valued dates) and the `"YYYY-MM-DD"` string respectively the
zero-padded month / year pair for a valid date; in particular
30 April 2026 renders as `"2026-04-30"` and as `("04", "2026")`. -/
theorem format_functions_null_safe :
    formatDateForInput none = [] ∧
    formatDateForMonthYear none = ⟨[], []⟩ ∧
    (∀ d : CalDate, formatDateForInput (some d)
      = intChars d.year ++ '-' :: pad2 d.month ++ '-' :: pad2 d.day) ∧
    (∀ d : CalDate, formatDateForMonthYear (some d) = ⟨pad2 d.month, intChars d.year⟩) ∧
    formatDateForInput (some ⟨2026, 4, 30⟩) = "2026-04-30".toList ∧
    formatDateForMonthYear (some ⟨2026, 4, 30⟩) = ⟨"04".toList, "2026".toList⟩ :=
  ⟨rfl, rfl, fun _ => rfl, fun _ => rfl, by decide, by decide⟩

/-- C10: in every record returned by `parseGs1Data`, the decoded
`expiryDate` is the result of the 6-character-guarded decode of
`expiryDateRaw` (absent or wrong-length raw value gives the null
sentinel), and `parseYYMMDD` itself returns the null sentinel for any
input whose length is not exactly 6. -/
theorem expiryDate_pipeline :
    (∀ raw : List Char,
      (parseGs1Data raw).expiryDate =
        (parseGs1Data raw).expiryDateRaw.bind
          (fun e => if e.length = 6 then parseYYMMDD e else none)) ∧
    (∀ s : List Char, s.length ≠ 6 → parseYYMMDD s = none) := by
  constructor
  · intro raw
    cases raw with
    | nil => decide
    | cons x xs =>
      unfold parseGs1Data
      rw [if_neg (by simp)]
      cases hp : hasParenthesesB (normalizeGs1Raw (x :: xs)) <;>
        cases hg : hasGtinAiStart (normalizeGs1Raw (x :: xs)) <;>
          simp [hp, hg, expiryFromRaw_eq_bind]
  · intro s hs
    unfold parseYYMMDD
    rw [if_pos hs]

/-- Witness for C10 at a 7-character raw value. -/
theorem expiryDate_pipeline_w : parseYYMMDD ("1234567".toList) = none :=
  expiryDate_pipeline.2 ("1234567".toList) (by decide)

/-- C6 (counterexample): for the bracketless input
`"0100000000000000" + "10" + GS + "21A"` the sequential tokenizer stores
the batch field as the EMPTY string (`10` is immediately followed by the
separator, the captured value is empty, and `value.trim()` is assigned
unconditionally), so the returned record carries `batch = some ""` —
refuting the claim that every optional field is absent or non-empty. -/
theorem sequential_empty_batch_cx :
    (parseGs1Data ("010000000000000010".toList ++ [Char.ofNat 29] ++ "21A".toList)).batch
      = some [] := by
  decide

/-- C6 (amended): in the parenthesized extraction path no optional field
of the returned record is ever the empty string — each is absent or
non-empty (`extractAI` turns an empty value into an absent field); the
guarantee does not extend to the sequential bracketless path. -/
theorem paren_fields_never_empty (raw : List Char)
    (hp : hasParenthesesB (normalizeGs1Raw raw) = true) :
    (parseGs1Data raw).gtin ≠ some [] ∧
    (parseGs1Data raw).expiryDateRaw ≠ some [] ∧
    (parseGs1Data raw).batch ≠ some [] ∧
    (parseGs1Data raw).serial ≠ some [] := by
  have h : raw ≠ [] := by
    intro h; subst h
    rw [normalizeGs1Raw_nil] at hp
    exact absurd hp (by decide)
  unfold parseGs1Data
  rw [if_neg h]
  simp only [hp, Bool.not_true, Bool.false_and, Bool.false_eq_true, if_false, if_true]
  exact ⟨extractAI_ne_some_nil _ _ _, extractAI_ne_some_nil _ _ _,
    extractAI_ne_some_nil _ _ _, extractAI_ne_some_nil _ _ _⟩

/-- Witness for the amended C6 at the Scenario A input. -/
theorem paren_fields_never_empty_w :
    (parseGs1Data ("(01)05012345678901(17)260430(10)LOT12345(21)SN987654".toList)).gtin
      ≠ some [] ∧
    (parseGs1Data ("(01)05012345678901(17)260430(10)LOT12345(21)SN987654".toList)).expiryDateRaw
      ≠ some [] ∧
    (parseGs1Data ("(01)05012345678901(17)260430(10)LOT12345(21)SN987654".toList)).batch
      ≠ some [] ∧
    (parseGs1Data ("(01)05012345678901(17)260430(10)LOT12345(21)SN987654".toList)).serial
      ≠ some [] :=
  paren_fields_never_empty ("(01)05012345678901(17)260430(10)LOT12345(21)SN987654".toList)
    (by decide)

namespace Gs1

lemma findAIMatchGo_ne_nil (marker : List Char) :
    ∀ (l run : List Char), findAIMatchGo marker l = some run → run ≠ [] := by
  intro l
  induction l with
  | nil => intro run h; simp [findAIMatchGo] at h
  | cons c rest ih =>
    intro run h
    unfold findAIMatchGo at h
    by_cases hsw : listStartsWith marker (c :: rest) = true
    · rw [if_pos hsw] at h
      by_cases hr : ((c :: rest).drop marker.length).takeWhile
          (fun ch => ch ≠ '(' ∧ ch ≠ '|') = ([] : List Char)
      · rw [if_pos hr] at h
        exact ih run h
      · rw [if_neg hr] at h
        cases h
        exact hr
    · rw [if_neg hsw] at h
      exact ih run h

end Gs1

/-- C3 (counterexample): in `"(01)05(17)26043010BATCH1234"` the 14
characters immediately following the `(01)` marker are
`"05(17)26043010"`, but the extracted value is `"05"`: the capturing
regex `([^(|]+)` stops at the `(` INSIDE the fixed 14-character span
before the fixed-length cut is applied, refuting the claim that
delimiters within the fixed span do not terminate the value. -/
theorem extractAI_fixed_span_truncated_cx :
    extractAI ("(01)05(17)26043010BATCH1234".toList) ['0', '1'] (some 14)
      = some ("05".toList) ∧
    jsSubstring ("(01)05(17)26043010BATCH1234".toList) 4 18
      = "05(17)26043010".toList ∧
    some ("05".toList)
      ≠ some (jsSubstring ("(01)05(17)26043010BATCH1234".toList) 4 18) := by
  decide

/-- C3 (amended): for a fixed-length AI with length `N ≥ 1`, the extracted
value is the first `N` characters (fewer when the run is shorter) of the
regex-captured run — the maximal run of characters other than `(` and the
separator that immediately follows the first marker occurrence having at
least one such character after it — and that value is never empty; the
run, not the fixed span, bounds the value, so a `(` or separator inside
the fixed span terminates it. -/
theorem extractAI_fixed_value_from_run (s ai : List Char) (n : Nat) (hn : 1 ≤ n)
    (run : List Char) (h : findAIMatch s ('(' :: ai ++ [')']) = some run) :
    extractAI s ai (some n) = some (run.take n) ∧ run.take n ≠ [] := by
  have hrun : run ≠ [] := findAIMatchGo_ne_nil _ _ _ h
  have htake : run.take n ≠ [] := by
    cases run with
    | nil => exact absurd rfl hrun
    | cons a t =>
      cases n with
      | zero => omega
      | succ m => simp
  refine ⟨?_, htake⟩
  unfold extractAI
  rw [h]
  simp only [if_neg htake]

/-- Witness for the amended C3 at `"(17)260430"`. -/
theorem extractAI_fixed_value_from_run_w :
    extractAI ("(17)260430".toList) ['1', '7'] (some 6)
      = some (("260430".toList).take 6) ∧ ("260430".toList).take 6 ≠ [] :=
  extractAI_fixed_value_from_run ("(17)260430".toList) ['1', '7'] 6 (by decide)
    ("260430".toList) (by decide)

namespace Gs1

lemma scanVarGo_inv (fuel : Nat) :
    ∀ (s : List Char) (pos ePos : Nat), s.length + 1 - ePos ≤ fuel →
      (scanVarGo fuel s pos ePos).2 = false →
      (scanVarGo fuel s pos ePos).1 < s.length →
      pos < (scanVarGo fuel s pos ePos).1 ∧
        (isKnownAI s (scanVarGo fuel s pos ePos).1).isSome = true := by
  induction fuel with
  | zero =>
    intro s pos ePos hf h2 h1
    simp only [scanVarGo] at h1
    omega
  | succ n ih =>
    intro s pos ePos hf h2 h1
    unfold scanVarGo at h2 h1 ⊢
    by_cases hlt : ePos < s.length
    · rw [if_pos hlt] at h2 h1 ⊢
      by_cases hsep : s.getD ePos ' ' = '|'
      · rw [if_pos hsep] at h2
        simp at h2
      · rw [if_neg hsep] at h2 h1 ⊢
        by_cases hai : pos < ePos ∧ (isKnownAI s ePos).isSome = true
        · rw [if_pos hai] at h1 ⊢
          exact hai
        · rw [if_neg hai] at h2 h1 ⊢
          exact ih s pos (ePos + 1) (by omega) h2 h1
    · rw [if_neg hlt] at h1
      exact absurd h1 hlt

end Gs1

/-- C4: in the sequential tokenizer's variable-length capture, for every
input and cursor position, if the scan terminates other than at a
separator and before the end of the string, then the stop position is one
where a known AI code is recognized AND at least one character of the
value has already been consumed (`pos < stop`); hence a variable-length
value is never truncated to a zero-length value by an AI code sitting
immediately at its start. -/
theorem variable_capture_zero_length_guard (s : List Char) (pos : Nat)
    (h2 : (scanVar s pos).2 = false) (h1 : (scanVar s pos).1 < s.length) :
    pos < (scanVar s pos).1 ∧ (isKnownAI s (scanVar s pos).1).isSome = true := by
  unfold scanVar at h2 h1 ⊢
  exact scanVarGo_inv (s.length + 1 - pos) s pos pos le_rfl h2 h1

/-- Witness for C4 at `"10A17260430"` with the cursor at the start of the
batch value: the scan stops at position 3 where the AI code `17` begins,
after consuming the one-character value `"A"`. -/
theorem variable_capture_zero_length_guard_w :
    2 < (scanVar ("10A17260430".toList) 2).1 ∧
      (isKnownAI ("10A17260430".toList) (scanVar ("10A17260430".toList) 2).1).isSome = true :=
  variable_capture_zero_length_guard ("10A17260430".toList) 2 (by decide) (by decide)

namespace Gs1

lemma digit_not_space {c : Char} (h : isDigitCh c = true) : isJsSpace c = false := by
  simp only [isDigitCh, decide_eq_true_eq] at h
  simp only [isJsSpace, jsSpaceCodes, decide_eq_false_iff_not]
  intro hc
  rcases hc with hmem | hrange
  · simp only [List.mem_cons, List.not_mem_nil, or_false] at hmem
    omega
  · omega

lemma jsParseInt_two_digits (a b : Char) (ha : isDigitCh a = true) (hb : isDigitCh b = true) :
    jsParseInt [a, b] = some ((digitsToNat [a, b] : Nat) : Int) := by
  have ha' := ha
  simp only [isDigitCh, decide_eq_true_eq] at ha'
  have hminus : a ≠ '-' := fun he => by subst he; revert ha'; decide
  have hplus : a ≠ '+' := fun he => by subst he; revert ha'; decide
  unfold jsParseInt
  rw [show List.dropWhile isJsSpace [a, b] = [a, b] by
    simp [List.dropWhile, digit_not_space ha]]
  simp only [if_neg hminus, if_neg hplus]
  unfold digitsVal
  rw [show List.takeWhile isDigitCh [a, b] = [a, b] by
    simp [List.takeWhile, ha, hb]]
  simp

lemma jsDateYMD_fix (y m0 d : Int) :
    (jsDateYMD y m0 d = (y, m0, d)) ↔ d ≤ daysInMonth y (m0 + 1) := by
  unfold jsDateYMD
  split_ifs with h h2
  · simp [h]
  · simp only [Prod.mk.injEq]
    constructor
    · rintro ⟨h1, -, -⟩; omega
    · intro hle; exact absurd hle h
  · simp only [Prod.mk.injEq]
    constructor
    · rintro ⟨-, h1, -⟩; omega
    · intro hle; exact absurd hle h

end Gs1

/-- C5: for every 6-character numeric string, `parseYYMMDD` returns the
calendar date with year `2000 + YY`, month `MM`, day `DD` exactly when
`MM ∈ 1–12`, `DD ∈ 1–31` and `DD` does not exceed the length of that
month (the rolled-over construction is rejected by the re-derivation
check); otherwise it returns the null sentinel.  In particular `"300230"`
(Feb 30, 2030) decodes to the null sentinel and `"260430"` decodes to
30 April 2026. -/
theorem parseYYMMDD_characterization :
    (∀ s : List Char, s.length = 6 → (∀ c ∈ s, isDigitCh c = true) →
      parseYYMMDD s =
        (if 1 ≤ digitsToNat (jsSubstring s 2 4) ∧ digitsToNat (jsSubstring s 2 4) ≤ 12 ∧
            1 ≤ digitsToNat (jsSubstring s 4 6) ∧ digitsToNat (jsSubstring s 4 6) ≤ 31 ∧
            (digitsToNat (jsSubstring s 4 6) : Int) ≤
              daysInMonth (2000 + (digitsToNat (jsSubstring s 0 2) : Int))
                (digitsToNat (jsSubstring s 2 4) : Int)
         then some ⟨2000 + (digitsToNat (jsSubstring s 0 2) : Int),
                digitsToNat (jsSubstring s 2 4), digitsToNat (jsSubstring s 4 6)⟩
         else none)) ∧
    parseYYMMDD ("300230".toList) = none ∧
    parseYYMMDD ("260430".toList) = some ⟨2026, 4, 30⟩ := by
  refine ⟨?_, by decide, by decide⟩
  intro s h6 hd
  rcases s with _ | ⟨a1, s⟩; · simp at h6
  rcases s with _ | ⟨a2, s⟩; · simp at h6
  rcases s with _ | ⟨a3, s⟩; · simp at h6
  rcases s with _ | ⟨a4, s⟩; · simp at h6
  rcases s with _ | ⟨a5, s⟩; · simp at h6
  rcases s with _ | ⟨a6, rest⟩; · simp at h6
  have hr : rest = [] := by
    simp only [List.length_cons] at h6
    exact List.length_eq_zero.mp (by omega)
  subst hr
  have hc1 := hd a1 (by simp)
  have hc2 := hd a2 (by simp)
  have hc3 := hd a3 (by simp)
  have hc4 := hd a4 (by simp)
  have hc5 := hd a5 (by simp)
  have hc6 := hd a6 (by simp)
  have e0 : jsSubstring [a1, a2, a3, a4, a5, a6] 0 2 = [a1, a2] := rfl
  have e2 : jsSubstring [a1, a2, a3, a4, a5, a6] 2 4 = [a3, a4] := rfl
  have e4 : jsSubstring [a1, a2, a3, a4, a5, a6] 4 6 = [a5, a6] := rfl
  unfold parseYYMMDD
  rw [if_neg (by simp)]
  rw [e0, e2, e4,
    jsParseInt_two_digits a1 a2 hc1 hc2,
    jsParseInt_two_digits a3 a4 hc3 hc4,
    jsParseInt_two_digits a5 a6 hc5 hc6]
  set Y := digitsToNat [a1, a2] with hY
  set M := digitsToNat [a3, a4] with hM
  set D := digitsToNat [a5, a6] with hD
  by_cases hm : 1 ≤ M ∧ M ≤ 12
  · by_cases hdd : 1 ≤ D ∧ D ≤ 31
    · have hb1 : badRange (some ((M : Nat) : Int)) 1 12 = false := by
        simp only [badRange, Bool.or_eq_false_iff, decide_eq_false_iff_not]
        omega
      have hb2 : badRange (some ((D : Nat) : Int)) 1 31 = false := by
        simp only [badRange, Bool.or_eq_false_iff, decide_eq_false_iff_not]
        omega
      simp only [hb1, hb2, Bool.false_eq_true, if_false]
      simp only [jsDateYMD_fix]
      have harg : ((M : Int) - 1) + 1 = (M : Int) := by omega
      rw [harg]
      by_cases hle : (D : Int) ≤ daysInMonth (2000 + (Y : Int)) (M : Int)
      · rw [if_pos hle, if_pos ⟨hm.1, hm.2, hdd.1, hdd.2, hle⟩]
        simp
      · rw [if_neg hle, if_neg (fun hc => hle hc.2.2.2.2)]
    · have hb2 : badRange (some ((D : Nat) : Int)) 1 31 = true := by
        simp only [badRange, Bool.or_eq_true, decide_eq_true_eq]
        omega
      have hb1 : badRange (some ((M : Nat) : Int)) 1 12 = false := by
        simp only [badRange, Bool.or_eq_false_iff, decide_eq_false_iff_not]
        omega
      simp only [hb1, hb2, Bool.false_eq_true, if_false, if_true]
      rw [if_neg (fun hc => hdd ⟨hc.2.2.1, hc.2.2.2.1⟩)]
  · have hb1 : badRange (some ((M : Nat) : Int)) 1 12 = true := by
      simp only [badRange, Bool.or_eq_true, decide_eq_true_eq]
      omega
    simp only [hb1, if_true]
    rw [if_neg (fun hc => hm ⟨hc.1, hc.2.1⟩)]

/-- Witness for C5 at the numeric string `"991231"`. -/
theorem parseYYMMDD_characterization_w :
    parseYYMMDD ("991231".toList) = some ⟨2099, 12, 31⟩ := by
  have h := parseYYMMDD_characterization.1 ("991231".toList) (by decide) (by decide)
  rw [h]
  decide
